import Mathlib

/-!
Shallow embedding of `src/users_cameras.rs` from the camera-server
repository: a users↔cameras join-table store (Diesel queries against a
relational table) together with the access-gate function
`check_if_user_has_access_to_camera` and the `GET /ListCameras` handler
`list_cameras`.

The relational store is modelled as explicit state: a `Db` holding the
`users_cameras` association rows, the external read-only `cameras` table
joined against, and the sequence counter assigning primary keys.  A
connection (`Conn`) carries the database plus an optional failure mode
(when present, every query fails with that raw error message, modelling
an unreachable or erroring store) and a counter of issued queries.  Each
Diesel statement of the source is translated to a function
`Conn → result × Conn`.
-/

namespace CameraServer

/-- Camera and user identifiers: `uuid::Uuid`, a 128-bit value.  Modelled
as `Nat`; parsing bounds the value below `2 ^ 128`. -/
abbrev Uuid := Nat

/-- Value of a hexadecimal digit character, `none` if not a hex digit. -/
def hexDigitVal (c : Char) : Option Nat :=
  if '0' ≤ c ∧ c ≤ '9' then some (c.toNat - '0'.toNat)
  else if 'a' ≤ c ∧ c ≤ 'f' then some (c.toNat - 'a'.toNat + 10)
  else if 'A' ≤ c ∧ c ≤ 'F' then some (c.toNat - 'A'.toNat + 10)
  else none

/-- Big-endian value of a list of hex digit characters; `none` if any
character is not a hex digit. -/
def parseHexChars (cs : List Char) : Option Nat :=
  cs.foldl
    (fun acc c =>
      match acc, hexDigitVal c with
      | some n, some d => some (n * 16 + d)
      | _, _ => none)
    (some 0)

/-- Split a character list into the groups separated by `-`. -/
def splitOnDash : List Char → List (List Char)
  | [] => [[]]
  | c :: cs =>
    if c = '-' then [] :: splitOnDash cs
    else
      match splitOnDash cs with
      | g :: gs => (c :: g) :: gs
      | [] => [[c]]

/-- Model of the external `uuid` crate's `Uuid::parse_str` used by the
source: accepts the canonical hyphenated form (8-4-4-4-12 hex digits) and
the simple form (32 hex digits); any other string is malformed. -/
def Uuid.parse_str (s : String) : Option Uuid :=
  match splitOnDash s.data with
  | [a, b, c, d, e] =>
    if a.length = 8 ∧ b.length = 4 ∧ c.length = 4 ∧ d.length = 4 ∧ e.length = 12 then
      parseHexChars (a ++ b ++ c ++ d ++ e)
    else none
  | [a] => if a.length = 32 then parseHexChars a else none
  | _ => none

/-- An association record of the `users_cameras` table
(struct `UsersCamera`, lines 11–17 of the source): store-assigned primary
key `users_cameras_id`, plus the camera and user identifiers. -/
structure UsersCamera where
  users_cameras_id : Int
  camera_id : Uuid
  user_id : Uuid
deriving DecidableEq, Repr

/-- Insertable record (struct `InsertableUsersCamera`, lines 19–24): the
caller supplies the pair, the store assigns the primary key. -/
structure InsertableUsersCamera where
  camera_id : Uuid
  user_id : Uuid
deriving DecidableEq, Repr

/-- The external camera entity joined against by `get_users_cameras`:
`camera_id` and `name` (the two columns the join selects). -/
structure Camera where
  camera_id : Uuid
  name : String
deriving DecidableEq, Repr

/-- Database state: the `users_cameras` association table, the external
read-only `cameras` table, and the sequence assigning `users_cameras_id`
primary keys. -/
structure Db where
  users_cameras : List UsersCamera
  cameras : List Camera
  nextId : Int
deriving DecidableEq, Repr

/-- Diesel query errors (`diesel::result::Error`): `notFound` when
`get_result` matches no row, `databaseError` carrying the raw error text
when the store itself fails. -/
inductive DieselError where
  | notFound
  | databaseError (msg : String)
deriving DecidableEq, Repr

/-- `diesel::QueryResult`. -/
abbrev QueryResult (α : Type) := Except DieselError α

/-- A database connection: the database it reaches, an optional failure
mode (`some msg` means the store is unreachable or erroring, and every
issued query fails with raw error text `msg`), and a count of the queries
issued through it. -/
structure Conn where
  db : Db
  failure : Option String
  queries : Nat
deriving DecidableEq, Repr

/-- Issue one SQL statement through a connection: on a failing connection
the statement errors with the connection's raw error text; otherwise the
statement runs against the database.  Either way the query counter
advances by one. -/
def runQuery {α : Type} (conn : Conn) (f : Db → QueryResult α × Db) :
    QueryResult α × Conn :=
  match conn.failure with
  | some msg => (.error (.databaseError msg), { conn with queries := conn.queries + 1 })
  | none =>
    let (r, db') := f conn.db
    (r, { conn with db := db', queries := conn.queries + 1 })

/-- `all` (lines 26–28): load every row of `users_cameras`. -/
def all (conn : Conn) : QueryResult (List UsersCamera) × Conn :=
  runQuery conn (fun db => (.ok db.users_cameras, db))

/-- `get` (lines 30–34): `users_cameras::table.find(id).get_result` —
the row whose primary key equals `users_cameras_id`, or `NotFound`. -/
def get (users_cameras_id : Int) (conn : Conn) : QueryResult UsersCamera × Conn :=
  runQuery conn (fun db =>
    match db.users_cameras.find? (fun r => r.users_cameras_id == users_cameras_id) with
    | some r => (.ok r, db)
    | none => (.error .notFound, db))

/-- `insert` (lines 36–43): `insert_into(users_cameras).values(..).get_result`
— appends a new row with the store-assigned next primary key and returns
it (Postgres `RETURNING`).  No duplicate check is performed. -/
def insert (users_camera : InsertableUsersCamera) (conn : Conn) :
    QueryResult UsersCamera × Conn :=
  runQuery conn (fun db =>
    let newRow : UsersCamera :=
      ⟨db.nextId, users_camera.camera_id, users_camera.user_id⟩
    (.ok newRow,
     { db with users_cameras := db.users_cameras ++ [newRow], nextId := db.nextId + 1 }))

/-- `update` (lines 45–53): `update(users_cameras.find(id)).set(&users_camera)
.get_result` — the `AsChangeset` derived for `UsersCamera` names no
`#[primary_key]` and the struct has no `id` field, so nothing is skipped:
the SET clause writes all three columns, `users_cameras_id` included.
The addressed row is therefore replaced wholesale by the supplied record
(its primary key overwritten with the record's), and `RETURNING *` yields
that record.  `NotFound` when no row matches the addressed id. -/
def update (users_cameras_id : Int) (users_camera : UsersCamera) (conn : Conn) :
    QueryResult UsersCamera × Conn :=
  runQuery conn (fun db =>
    if db.users_cameras.any (fun r => r.users_cameras_id == users_cameras_id) then
      let rows :=
        db.users_cameras.map
          (fun r => if r.users_cameras_id == users_cameras_id then users_camera else r)
      (.ok users_camera, { db with users_cameras := rows })
    else (.error .notFound, db))

/-- `delete` (lines 55–57): `delete(users_cameras.find(id)).execute` —
removes the matching row and returns the affected-row count (0 when
absent); never `NotFound`. -/
def delete (users_cameras_id : Int) (conn : Conn) : QueryResult Nat × Conn :=
  runQuery conn (fun db =>
    let rows :=
      db.users_cameras.filter (fun r => !(r.users_cameras_id == users_cameras_id))
    (.ok (db.users_cameras.countP (fun r => r.users_cameras_id == users_cameras_id)),
     { db with users_cameras := rows }))

/-- The pure result of the join query of `get_users_cameras` (lines 63–67):
filter `users_cameras` on `user_id`, inner-join `cameras` on
`camera_id`, project to `(camera_id, name)`. -/
def usersCamerasJoin (db : Db) (user_id : Uuid) : List Camera :=
  (db.users_cameras.filter (fun r => r.user_id == user_id)).flatMap
    (fun r =>
      (db.cameras.filter (fun c => c.camera_id == r.camera_id)).map
        (fun c => ⟨c.camera_id, c.name⟩))

/-- `get_users_cameras` (lines 59–68): run the join query as one SQL
statement. -/
def get_users_cameras (user_id : Uuid) (conn : Conn) :
    QueryResult (List Camera) × Conn :=
  runQuery conn (fun db => (.ok (usersCamerasJoin db user_id), db))

/-- `ApiError` (from `api_error.rs`, used by the source): a caller-facing
error message and an HTTP status code. -/
structure ApiError where
  error : String
  status : Nat
deriving DecidableEq, Repr

/-- `user_tokens::UserToken`: the authenticated caller identity resolved
by the framework request guard; only its `user_id` is used here. -/
structure UserToken where
  user_id : Uuid
deriving DecidableEq, Repr

/-- `check_if_user_has_access_to_camera` (lines 72–111): parse the camera
id string (`422` on failure), fetch the caller's cameras (`500` on store
failure), linear-scan for a camera with the parsed id (`401` when
absent), else succeed with no value.  The resulting connection is
returned alongside to track issued queries and store state. -/
def check_if_user_has_access_to_camera (conn : Conn) (user_token : UserToken)
    (camera_id_string : String) : Except ApiError Unit × Conn :=
  match Uuid.parse_str camera_id_string with
  | none => (.error ⟨"Failed to parse camera ID string", 422⟩, conn)
  | some camera_id =>
    match get_users_cameras user_token.user_id conn with
    | (.error _, conn') =>
      (.error ⟨"Failed to get list of owned cameras", 500⟩, conn')
    | (.ok users_cameras_list, conn') =>
      if !(users_cameras_list.any (fun users_camera => users_camera.camera_id == camera_id)) then
        (.error ⟨"User does not have access to camera", 401⟩, conn')
      else
        (.ok (), conn')

/-- `list_cameras` (lines 114–131), the `GET /ListCameras` handler: fetch
the authenticated caller's cameras, mapping store failure to a generic
`500`; on success return the list (serialized to JSON by the framework,
out of scope). -/
def list_cameras (conn : Conn) (user_token : UserToken) :
    Except ApiError (List Camera) × Conn :=
  match get_users_cameras user_token.user_id conn with
  | (.error _, conn') =>
    (.error ⟨"Database failed to get list of cameras", 500⟩, conn')
  | (.ok camera_list, conn') => (.ok camera_list, conn')

/-! ### Sample data used by the witness theorems -/

/-- A sample association row: record 1 grants user 7 access to camera 1. -/
def row0 : UsersCamera := ⟨1, 1, 7⟩

/-- A sample camera entity with id 1. -/
def cam0 : Camera := ⟨1, "front door"⟩

/-- A sample camera entity with id 3, not associated to anyone. -/
def cam1 : Camera := ⟨3, "back door"⟩

/-- A sample database: one association row, two cameras, next key 2. -/
def db0 : Db := ⟨[row0], [cam0, cam1], 2⟩

/-- A healthy connection to `db0`. -/
def conn0 : Conn := ⟨db0, none, 0⟩

/-- A failing connection to `db0` (store unreachable). -/
def failConn0 : Conn := ⟨db0, some "connection refused", 0⟩

/-- A second failing connection with different raw error text. -/
def failConn1 : Conn := ⟨db0, some "deadlock detected", 0⟩

/-- The authenticated sample caller, user 7. -/
def u0 : UserToken := ⟨7⟩

/-- Canonical string form of camera id 1. -/
def uuidStr1 : String := "00000000-0000-0000-0000-000000000001"

/-- Canonical string form of camera id 2 (no such camera). -/
def uuidStr2 : String := "00000000-0000-0000-0000-000000000002"

/-! ### Claim theorems -/

/-- C9: for every malformed camera-identifier string, the access check
returns the 422 `InvalidArgument` error and the connection is returned
untouched — the query counter has not advanced, so no store query was
issued, and since the statement holds for every connection (failing ones
included) the result is independent of the store's contents and
availability. -/
theorem check_access_malformed_no_query (conn : Conn) (u : UserToken) (s : String)
    (hbad : Uuid.parse_str s = none) :
    check_if_user_has_access_to_camera conn u s
      = (.error ⟨"Failed to parse camera ID string", 422⟩, conn) := by
  simp [check_if_user_has_access_to_camera, hbad]

/-- Witness for C9 at a failing connection and the string "not-a-uuid". -/
theorem check_access_malformed_no_query_witness :
    check_if_user_has_access_to_camera failConn0 u0 "not-a-uuid"
      = (.error ⟨"Failed to parse camera ID string", 422⟩, failConn0) :=
  check_access_malformed_no_query failConn0 u0 "not-a-uuid" rfl

/-- C10: the access check and the listing endpoint are read-only — for
every input and every connection state the database (association table
and cameras table alike) is unchanged, whether the call succeeds or
fails. -/
theorem read_paths_preserve_store (conn : Conn) (u : UserToken) (s : String) :
    (check_if_user_has_access_to_camera conn u s).2.db = conn.db
      ∧ (list_cameras conn u).2.db = conn.db := by
  constructor
  · cases h : Uuid.parse_str s with
    | none => simp [check_if_user_has_access_to_camera, h]
    | some id =>
      cases hf : conn.failure with
      | none =>
        simp only [check_if_user_has_access_to_camera, get_users_cameras, runQuery, hf, h]
        split <;> simp
      | some msg =>
        simp [check_if_user_has_access_to_camera, get_users_cameras, runQuery, hf, h]
  · cases hf : conn.failure <;>
      simp [list_cameras, get_users_cameras, runQuery, hf]

/-- C8: for any two store-layer failures (arbitrary raw error texts, and
even arbitrary database contents and query counters), the access check
and the listing endpoint return the same fixed, caller-safe error for
both runs; the raw store error text never appears in the returned error,
which is a constant independent of it. -/
theorem store_errors_not_leaked (db1 db2 : Db) (q1 q2 : Nat) (e1 e2 : String)
    (u : UserToken) (s : String) (hs : Uuid.parse_str s ≠ none) :
    ((check_if_user_has_access_to_camera ⟨db1, some e1, q1⟩ u s).1
        = .error ⟨"Failed to get list of owned cameras", 500⟩
      ∧ (check_if_user_has_access_to_camera ⟨db2, some e2, q2⟩ u s).1
        = (check_if_user_has_access_to_camera ⟨db1, some e1, q1⟩ u s).1)
    ∧ ((list_cameras ⟨db1, some e1, q1⟩ u).1
        = .error ⟨"Database failed to get list of cameras", 500⟩
      ∧ (list_cameras ⟨db2, some e2, q2⟩ u).1 = (list_cameras ⟨db1, some e1, q1⟩ u).1) := by
  obtain ⟨id, hid⟩ := Option.ne_none_iff_exists'.mp hs
  simp [check_if_user_has_access_to_camera, list_cameras, get_users_cameras, runQuery, hid]

/-- Witness for C8 at two failing connections with distinct error texts. -/
theorem store_errors_not_leaked_witness :
    ((check_if_user_has_access_to_camera failConn0 u0 uuidStr1).1
        = .error ⟨"Failed to get list of owned cameras", 500⟩
      ∧ (check_if_user_has_access_to_camera failConn1 u0 uuidStr1).1
        = (check_if_user_has_access_to_camera failConn0 u0 uuidStr1).1)
    ∧ ((list_cameras failConn0 u0).1
        = .error ⟨"Database failed to get list of cameras", 500⟩
      ∧ (list_cameras failConn1 u0).1 = (list_cameras failConn0 u0).1) :=
  store_errors_not_leaked db0 db0 0 0 "connection refused" "deadlock detected" u0 uuidStr1
    (by decide)

/-- C7: on a record id absent from the store, `get` fails with `NotFound`
and `update` fails with `NotFound`, and neither operation modifies the
database. -/
theorem get_update_absent_not_found (conn : Conn) (id : Int) (uc : UsersCamera)
    (hok : conn.failure = none)
    (habs : ∀ r ∈ conn.db.users_cameras, r.users_cameras_id ≠ id) :
    ((get id conn).1 = .error .notFound ∧ (get id conn).2.db = conn.db)
    ∧ ((update id uc conn).1 = .error .notFound ∧ (update id uc conn).2.db = conn.db) := by
  have hfind : conn.db.users_cameras.find? (fun r => r.users_cameras_id == id) = none := by
    rw [List.find?_eq_none]
    intro x hx
    simpa using habs x hx
  have hany : conn.db.users_cameras.any (fun r => r.users_cameras_id == id) = false := by
    rw [List.any_eq_false]
    intro x hx
    simpa using habs x hx
  simp [get, update, runQuery, hok, hfind, hany]

/-- Witness for C7: record id 5 is absent from the sample store. -/
theorem get_update_absent_not_found_witness :
    ((get 5 conn0).1 = .error .notFound ∧ (get 5 conn0).2.db = conn0.db)
    ∧ ((update 5 row0 conn0).1 = .error .notFound ∧ (update 5 row0 conn0).2.db = conn0.db) :=
  get_update_absent_not_found conn0 5 row0 rfl (by decide)

/-- C2: on a healthy connection, `get_users_cameras u` succeeds (never
errors, in particular not on a user with zero association rows) with
exactly the cameras — projected to `(camera_id, name)` — whose
association rows carry `user_id = u`; when the user has no association
rows the result is the empty list. -/
theorem get_users_cameras_spec (conn : Conn) (u : Uuid) (hok : conn.failure = none) :
    (get_users_cameras u conn).1 = .ok (usersCamerasJoin conn.db u)
    ∧ (∀ c : Camera, c ∈ usersCamerasJoin conn.db u ↔
        ∃ row ∈ conn.db.users_cameras, row.user_id = u
          ∧ ∃ cam ∈ conn.db.cameras, cam.camera_id = row.camera_id
            ∧ c = ⟨cam.camera_id, cam.name⟩)
    ∧ ((∀ row ∈ conn.db.users_cameras, row.user_id ≠ u) →
        usersCamerasJoin conn.db u = []) := by
  refine ⟨by simp [get_users_cameras, runQuery, hok], fun c => ?_, fun hnone => ?_⟩
  · simp only [usersCamerasJoin, List.mem_flatMap, List.mem_filter, List.mem_map]
    constructor
    · rintro ⟨row, ⟨hrow, hru⟩, cam, ⟨hcam, hcc⟩, hc⟩
      exact ⟨row, hrow, by simpa using hru, cam, hcam, by simpa using hcc, hc.symm⟩
    · rintro ⟨row, hrow, hru, cam, hcam, hcc, hc⟩
      exact ⟨row, ⟨hrow, by simp [hru]⟩, cam, ⟨hcam, by simp [hcc]⟩, hc.symm⟩
  · have : conn.db.users_cameras.filter (fun r => r.user_id == u) = [] := by
      rw [List.filter_eq_nil_iff]
      intro r hr
      simpa using hnone r hr
    simp [usersCamerasJoin, this]

/-- Witness for C2 at the sample store: user 7 owns exactly camera 1, and
user 9 (zero association rows) gets the empty list. -/
theorem get_users_cameras_spec_witness :
    (get_users_cameras 7 conn0).1 = .ok (usersCamerasJoin conn0.db 7)
    ∧ (cam0 ∈ usersCamerasJoin conn0.db 7 ↔
        ∃ row ∈ conn0.db.users_cameras, row.user_id = 7
          ∧ ∃ cam ∈ conn0.db.cameras, cam.camera_id = row.camera_id
            ∧ cam0 = ⟨cam.camera_id, cam.name⟩)
    ∧ usersCamerasJoin conn0.db 9 = [] :=
  ⟨(get_users_cameras_spec conn0 7 rfl).1,
   (get_users_cameras_spec conn0 7 rfl).2.1 cam0,
   (get_users_cameras_spec conn0 9 rfl).2.2 (by decide)⟩

/-- C1: on a healthy connection, the access check on a well-formed camera
identifier succeeds exactly when some camera returned by the join query
for the user carries the parsed id, fails with the 401 `Unauthorized`
error when none does, and fails with the 422 `InvalidArgument` error on a
malformed identifier. -/
theorem check_access_spec (conn : Conn) (u : UserToken) (s : String)
    (hok : conn.failure = none) :
    (Uuid.parse_str s = none →
      (check_if_user_has_access_to_camera conn u s).1
        = .error ⟨"Failed to parse camera ID string", 422⟩)
    ∧ (∀ id, Uuid.parse_str s = some id →
        ((∃ c ∈ usersCamerasJoin conn.db u.user_id, c.camera_id = id) →
          (check_if_user_has_access_to_camera conn u s).1 = .ok ())
        ∧ ((∀ c ∈ usersCamerasJoin conn.db u.user_id, c.camera_id ≠ id) →
          (check_if_user_has_access_to_camera conn u s).1
            = .error ⟨"User does not have access to camera", 401⟩)) := by
  refine ⟨fun hbad => by simp [check_if_user_has_access_to_camera, hbad],
    fun id hid => ⟨fun hmem => ?_, fun habs => ?_⟩⟩
  · have hany : (usersCamerasJoin conn.db u.user_id).any
        (fun c => c.camera_id == id) = true := by
      rw [List.any_eq_true]
      obtain ⟨c, hc, hcid⟩ := hmem
      exact ⟨c, hc, by simp [hcid]⟩
    simp [check_if_user_has_access_to_camera, get_users_cameras, runQuery, hok, hid, hany]
  · have hany : (usersCamerasJoin conn.db u.user_id).any
        (fun c => c.camera_id == id) = false := by
      rw [List.any_eq_false]
      intro c hc
      simpa using habs c hc
    simp [check_if_user_has_access_to_camera, get_users_cameras, runQuery, hok, hid, hany]

/-- Witness for C1 at the sample store: user 7 may access camera 1, may
not access camera 2, and "not-a-uuid" is rejected as malformed. -/
theorem check_access_spec_witness :
    (check_if_user_has_access_to_camera conn0 u0 uuidStr1).1 = .ok ()
    ∧ (check_if_user_has_access_to_camera conn0 u0 uuidStr2).1
        = .error ⟨"User does not have access to camera", 401⟩
    ∧ (check_if_user_has_access_to_camera conn0 u0 "not-a-uuid").1
        = .error ⟨"Failed to parse camera ID string", 422⟩ :=
  ⟨((check_access_spec conn0 u0 uuidStr1 rfl).2 1 (by decide)).1
      ⟨cam0, by decide, rfl⟩,
   ((check_access_spec conn0 u0 uuidStr2 rfl).2 2 (by decide)).2 (by decide),
   (check_access_spec conn0 u0 "not-a-uuid" rfl).1 rfl⟩

/-- C3: the access check maps a malformed identifier to status 422, a
store failure to status 500, and an authorization failure to status 401,
and every error it produces carries one of these three statuses; the
listing endpoint only ever produces a success or a status-500 error. -/
theorem error_status_mapping (conn : Conn) (u : UserToken) (s : String) :
    (Uuid.parse_str s = none →
      (check_if_user_has_access_to_camera conn u s).1
        = .error ⟨"Failed to parse camera ID string", 422⟩)
    ∧ (∀ id msg, Uuid.parse_str s = some id → conn.failure = some msg →
      (check_if_user_has_access_to_camera conn u s).1
        = .error ⟨"Failed to get list of owned cameras", 500⟩)
    ∧ (∀ id, Uuid.parse_str s = some id → conn.failure = none →
        (∀ c ∈ usersCamerasJoin conn.db u.user_id, c.camera_id ≠ id) →
        (check_if_user_has_access_to_camera conn u s).1
          = .error ⟨"User does not have access to camera", 401⟩)
    ∧ (∀ e, (check_if_user_has_access_to_camera conn u s).1 = .error e →
        e.status = 422 ∨ e.status = 500 ∨ e.status = 401)
    ∧ (∀ e, (list_cameras conn u).1 = .error e →
        e = ⟨"Database failed to get list of cameras", 500⟩)
    ∧ (conn.failure = none →
        (list_cameras conn u).1 = .ok (usersCamerasJoin conn.db u.user_id)) := by
  refine ⟨fun hbad => by simp [check_if_user_has_access_to_camera, hbad],
    fun id msg hid hf => by
      simp [check_if_user_has_access_to_camera, get_users_cameras, runQuery, hid, hf],
    fun id hid hok habs => ?_, fun e he => ?_, fun e he => ?_, fun hok => ?_⟩
  · have hany : (usersCamerasJoin conn.db u.user_id).any
        (fun c => c.camera_id == id) = false := by
      rw [List.any_eq_false]
      intro c hc
      simpa using habs c hc
    simp [check_if_user_has_access_to_camera, get_users_cameras, runQuery, hok, hid, hany]
  · cases hid : Uuid.parse_str s with
    | none =>
      simp [check_if_user_has_access_to_camera, hid] at he
      simp [← he]
    | some id =>
      cases hf : conn.failure with
      | some msg =>
        simp [check_if_user_has_access_to_camera, get_users_cameras, runQuery, hid, hf] at he
        simp [← he]
      | none =>
        simp only [check_if_user_has_access_to_camera, get_users_cameras, runQuery, hf] at he
        rw [hid] at he
        by_cases hany : (usersCamerasJoin conn.db u.user_id).any
            (fun c => c.camera_id == id) = true
        · simp [hany] at he
        · simp [eq_false_of_ne_true hany] at he
          simp [← he]
  · cases hf : conn.failure with
    | some msg =>
      simp [list_cameras, get_users_cameras, runQuery, hf] at he
      exact he.symm
    | none =>
      simp [list_cameras, get_users_cameras, runQuery, hf] at he
  · simp [list_cameras, get_users_cameras, runQuery, hok]

/-- Witness for C3 covering all three access-check statuses and both
listing outcomes at the sample store. -/
theorem error_status_mapping_witness :
    (check_if_user_has_access_to_camera conn0 u0 "not-a-uuid").1
      = .error ⟨"Failed to parse camera ID string", 422⟩
    ∧ (check_if_user_has_access_to_camera failConn0 u0 uuidStr1).1
      = .error ⟨"Failed to get list of owned cameras", 500⟩
    ∧ (check_if_user_has_access_to_camera conn0 u0 uuidStr2).1
      = .error ⟨"User does not have access to camera", 401⟩
    ∧ (list_cameras conn0 u0).1 = .ok (usersCamerasJoin conn0.db u0.user_id) :=
  ⟨(error_status_mapping conn0 u0 "not-a-uuid").1 rfl,
   (error_status_mapping failConn0 u0 uuidStr1).2.1 1 "connection refused" (by decide) rfl,
   (error_status_mapping conn0 u0 uuidStr2).2.2.1 2 (by decide) rfl (by decide),
   (error_status_mapping conn0 u0 uuidStr1).2.2.2.2.2 rfl⟩

/-- `find?` returns `a` when every element satisfying the predicate
equals `a` and some element satisfies it. -/
theorem find?_eq_of_all_eq {α : Type} (p : α → Bool) (l : List α) (a : α)
    (hall : ∀ x ∈ l, p x = true → x = a)
    (hex : ∃ x ∈ l, p x = true) :
    l.find? p = some a := by
  induction l with
  | nil => simp at hex
  | cons b t ih =>
    by_cases hb : p b = true
    · rw [List.find?_cons_of_pos _ hb, hall b (List.mem_cons_self b t) hb]
    · rw [List.find?_cons_of_neg _ hb]
      refine ih (fun x hx hpx => hall x (List.mem_cons_of_mem _ hx) hpx) ?_
      obtain ⟨x, hx, hpx⟩ := hex
      rcases List.mem_cons.mp hx with rfl | hxt
      · exact absurd hpx hb
      · exact ⟨x, hxt, hpx⟩

/-- C4: on a healthy connection with a fresh next key, `insert` succeeds
on any store state (no duplicate check: no hypothesis about the pair
being absent) and returns a record carrying the inserted pair plus the
store-assigned key, and `get` of that key on the resulting state returns
that very record. -/
theorem insert_then_get (conn : Conn) (uc : InsertableUsersCamera)
    (hok : conn.failure = none)
    (hfresh : ∀ r ∈ conn.db.users_cameras, r.users_cameras_id ≠ conn.db.nextId) :
    ∃ newRec conn',
      insert uc conn = (.ok newRec, conn')
      ∧ newRec.camera_id = uc.camera_id ∧ newRec.user_id = uc.user_id
      ∧ newRec.users_cameras_id = conn.db.nextId
      ∧ (get newRec.users_cameras_id conn').1 = .ok newRec := by
  refine ⟨⟨conn.db.nextId, uc.camera_id, uc.user_id⟩,
    ⟨{ conn.db with
        users_cameras :=
          conn.db.users_cameras ++ [⟨conn.db.nextId, uc.camera_id, uc.user_id⟩],
        nextId := conn.db.nextId + 1 },
      none, conn.queries + 1⟩,
    ?_, rfl, rfl, rfl, ?_⟩
  · simp [insert, runQuery, hok]
  · have hnone : conn.db.users_cameras.find?
        (fun r => r.users_cameras_id == conn.db.nextId) = none := by
      rw [List.find?_eq_none]
      intro x hx
      simpa using hfresh x hx
    simp [get, runQuery, hnone]

/-- Witness for C4: inserting (camera 3, user 7) into the sample store,
whose association table already holds a row, succeeds and round-trips
through `get`. -/
theorem insert_then_get_witness :
    ∃ newRec conn',
      insert ⟨3, 7⟩ conn0 = (.ok newRec, conn')
      ∧ newRec.camera_id = 3 ∧ newRec.user_id = 7
      ∧ newRec.users_cameras_id = conn0.db.nextId
      ∧ (get newRec.users_cameras_id conn').1 = .ok newRec :=
  insert_then_get conn0 ⟨3, 7⟩ rfl (by decide)

/-- C5 counterexample: updating record 1 of the sample store with a
replacement record carrying key 99 does not keep the addressed record id
— the returned record carries key 99, and `get 1` on the resulting store
fails with `NotFound` instead of returning the updated values. -/
theorem update_overwrites_key_counterexample :
    (update 1 ⟨99, 5, 6⟩ conn0).1 = .ok ⟨99, 5, 6⟩
    ∧ (get 1 (update 1 ⟨99, 5, 6⟩ conn0).2).1 = .error .notFound :=
  ⟨rfl, rfl⟩

/-- C5 (amended): on a healthy connection, updating an existing record id
with a replacement record succeeds and replaces the row wholesale with
the supplied record — the primary key is overwritten with the record's
`users_cameras_id`, since the derived changeset skips no column — and
returns that record; afterwards `get` of the record's key returns it
(when no other row carried that key), and `get` of the addressed id fails
with `NotFound` whenever the record's key differs from it. -/
theorem update_then_get (conn : Conn) (id : Int) (uc : UsersCamera)
    (hok : conn.failure = none)
    (hex : ∃ r ∈ conn.db.users_cameras, r.users_cameras_id = id) :
    ∃ conn',
      update id uc conn = (.ok uc, conn')
      ∧ ((∀ r ∈ conn.db.users_cameras,
            r.users_cameras_id = id ∨ r.users_cameras_id ≠ uc.users_cameras_id) →
          (get uc.users_cameras_id conn').1 = .ok uc)
      ∧ (uc.users_cameras_id ≠ id → (get id conn').1 = .error .notFound) := by
  have hany : conn.db.users_cameras.any (fun r => r.users_cameras_id == id) = true := by
    rw [List.any_eq_true]
    obtain ⟨r, hr, he⟩ := hex
    exact ⟨r, hr, by simp [he]⟩
  refine ⟨⟨{ conn.db with
      users_cameras := conn.db.users_cameras.map
        (fun r => if r.users_cameras_id == id then uc else r) },
      none, conn.queries + 1⟩, ?_, fun hkeys => ?_, fun hne => ?_⟩
  · simp [update, runQuery, hok, hany]
  · have hfind : ((conn.db.users_cameras.map
          (fun r => if r.users_cameras_id == id then uc else r)).find?
            (fun r => r.users_cameras_id == uc.users_cameras_id)) = some uc := by
      refine find?_eq_of_all_eq _ _ uc (fun x hx hpx => ?_) ?_
      · obtain ⟨r, hr, hfr⟩ := List.mem_map.mp hx
        by_cases hrid : r.users_cameras_id = id
        · rw [if_pos (by simpa using hrid)] at hfr
          exact hfr.symm
        · rw [if_neg (by simpa using hrid)] at hfr
          rcases hkeys r hr with h | h
          · exact absurd h hrid
          · rw [← hfr] at hpx
            exact absurd (by simpa using hpx) h
      · obtain ⟨r, hr, he⟩ := hex
        refine ⟨uc, List.mem_map.mpr ⟨r, hr, by rw [if_pos (by simpa using he)]⟩, by simp⟩
    simp only [get, runQuery]
    rw [hfind]
  · have hfind : ((conn.db.users_cameras.map
          (fun r => if r.users_cameras_id == id then uc else r)).find?
            (fun r => r.users_cameras_id == id)) = none := by
      rw [List.find?_eq_none]
      intro x hx
      obtain ⟨r, hr, hfr⟩ := List.mem_map.mp hx
      by_cases hrid : r.users_cameras_id = id
      · rw [if_pos (by simpa using hrid)] at hfr
        rw [← hfr]
        simpa using hne
      · rw [if_neg (by simpa using hrid)] at hfr
        rw [← hfr]
        simpa using hrid
    simp only [get, runQuery]
    rw [hfind]

/-- Witness for C5 (amended): replacing record 1 of the sample store with
the record ⟨99, 5, 6⟩ rewrites the row's key to 99 — `get 99` finds it,
`get 1` fails. -/
theorem update_then_get_witness :
    ∃ conn',
      update 1 ⟨99, 5, 6⟩ conn0 = (.ok ⟨99, 5, 6⟩, conn')
      ∧ (get 99 conn').1 = .ok ⟨99, 5, 6⟩
      ∧ (get 1 conn').1 = .error .notFound := by
  obtain ⟨conn', h1, h2, h3⟩ :=
    update_then_get conn0 1 ⟨99, 5, 6⟩ rfl ⟨row0, by decide, by decide⟩
  exact ⟨conn', h1, h2 (by decide), h3 (by decide)⟩

/-- C6: on a healthy connection whose primary keys are distinct, `delete`
never fails: on an existing id it returns count 1 and a subsequent `get`
of that id fails with `NotFound`; on a non-existent id it returns count 0
without error and leaves the table unchanged. -/
theorem delete_spec (conn : Conn) (id : Int) (hok : conn.failure = none)
    (hnd : (conn.db.users_cameras.map (fun r => r.users_cameras_id)).Nodup) :
    (∃ n, (delete id conn).1 = .ok n)
    ∧ ((∃ r ∈ conn.db.users_cameras, r.users_cameras_id = id) →
        (delete id conn).1 = .ok 1
        ∧ (get id (delete id conn).2).1 = .error .notFound)
    ∧ ((∀ r ∈ conn.db.users_cameras, r.users_cameras_id ≠ id) →
        (delete id conn).1 = .ok 0
        ∧ (delete id conn).2.db.users_cameras = conn.db.users_cameras) := by
  refine ⟨⟨conn.db.users_cameras.countP (fun r => r.users_cameras_id == id),
      by simp [delete, runQuery, hok]⟩,
    fun hex => ⟨?_, ?_⟩, fun habs => ⟨?_, ?_⟩⟩
  · have hmem : id ∈ conn.db.users_cameras.map (fun r => r.users_cameras_id) := by
      obtain ⟨r, hr, he⟩ := hex
      exact List.mem_map.mpr ⟨r, hr, he⟩
    have hcount : conn.db.users_cameras.countP (fun r => r.users_cameras_id == id) = 1 := by
      have h1 := List.count_eq_one_of_mem hnd hmem
      rw [List.count_eq_countP, List.countP_map] at h1
      simpa using h1
    simp [delete, runQuery, hok, hcount]
  · have hfind : ((conn.db.users_cameras.filter
        (fun r => !(r.users_cameras_id == id))).find?
          (fun r => r.users_cameras_id == id)) = none := by
      rw [List.find?_eq_none]
      intro x hx
      have := (List.mem_filter.mp hx).2
      simpa using this
    simp [delete, get, runQuery, hok, hfind]
  · have hcount : conn.db.users_cameras.countP (fun r => r.users_cameras_id == id) = 0 := by
      rw [List.countP_eq_zero]
      intro r hr
      simpa using habs r hr
    simp [delete, runQuery, hok, hcount]
  · have : conn.db.users_cameras.filter (fun r => !(r.users_cameras_id == id))
        = conn.db.users_cameras := by
      rw [List.filter_eq_self]
      intro r hr
      simpa using habs r hr
    simp [delete, runQuery, hok, this]

/-- Witness for C6: deleting the existing record 1 of the sample store
returns count 1 and makes `get 1` fail, and deleting the absent record 5
returns count 0 leaving the table unchanged. -/
theorem delete_spec_witness :
    ((delete 1 conn0).1 = .ok 1
      ∧ (get 1 (delete 1 conn0).2).1 = .error .notFound)
    ∧ ((delete 5 conn0).1 = .ok 0
      ∧ (delete 5 conn0).2.db.users_cameras = conn0.db.users_cameras) :=
  ⟨(delete_spec conn0 1 rfl (by decide)).2.1 ⟨row0, by decide, by decide⟩,
   (delete_spec conn0 5 rfl (by decide)).2.2 (by decide)⟩

end CameraServer
